import Mathlib

/-!
Verification development for the GROUPMSPU/groupwork repository:
a shallow embedding of the Express/PostgreSQL data-access layer
(src/app.js) over the SHOPEASE schema (src/SHOPEASE.sql), together
with theorems settling the specification claims about it.

Modelling decisions, all taken from the source:
* Every non-key column of the SQL schema is nullable (the DDL declares
  no NOT NULL and no DEFAULT), so such columns are `Option` values.
  `NUMERIC(10,2)` prices are modelled as integers (cents do not matter
  to any claim); `TIMESTAMP` values as integers.
* Each HTTP handler in app.js issues exactly one SQL statement and maps
  a thrown storage error to a 500 response, an empty result where one
  was required to 404, and success to 200/201/204.  An operation is
  embedded as a function from the store and the (typed) request body to
  a result together with the post-state; a single SQL statement is
  atomic, so an error leaves the store unchanged.
* PostgreSQL enforces the REFERENCES constraints of SHOPEASE.sql: an
  INSERT or UPDATE on sales with a non-null customer_id/product_id that
  matches no row, and a DELETE on a product still referenced by a
  sales/orders/order_items row, raise a foreign-key violation, which
  app.js catches and turns into a 500 response (never 404 or 409).
* The handlers read only the listed fields of the request body
  (destructuring); absent fields become NULL parameters.
-/

/-- Row of the customers table.  Only the key is ever consulted by the
service (as a foreign-key target); the contact columns are never read
by any operation in app.js, so they are omitted. -/
structure CustomerRow where
  customer_id : Nat
deriving DecidableEq

/-- Row of the products table (SHOPEASE.sql lines 12-19). -/
structure ProductRow where
  product_id : Nat
  product_name : Option String
  price : Option Int
  category : Option String
  description : Option String
  stock_quantity : Option Int
deriving DecidableEq

/-- Row of the sales table (SHOPEASE.sql lines 51-57). -/
structure SaleRow where
  sale_id : Nat
  customer_id : Option Nat
  product_id : Option Nat
  quantity : Option Int
  timestamp : Option Int
deriving DecidableEq

/-- Row of the orders table; only the columns consulted by the
foreign-key checks (its key and its product reference) are kept, the
others are never read by any operation in app.js. -/
structure OrderRow where
  order_id : Nat
  product_id : Option Nat
deriving DecidableEq

/-- Row of the order_items table; as for orders, only the key and the
product reference matter to the modelled operations. -/
structure OrderItemRow where
  order_item_id : Nat
  product_id : Option Nat
deriving DecidableEq

/-- The persisted store: the tables of SHOPEASE.sql that the service
touches (customers, orders, order_items only as foreign-key sources or
targets), plus the SERIAL sequence counters of products and sales. -/
structure Store where
  customers : List CustomerRow
  products : List ProductRow
  sales : List SaleRow
  orders : List OrderRow
  order_items : List OrderItemRow
  nextProductId : Nat
  nextSaleId : Nat
deriving DecidableEq

/-- The error responses app.js can produce: 404 with an entity message,
or 500 for any error thrown by the storage layer (which is how a
foreign-key violation surfaces).  No handler ever produces 400 or 409. -/
inductive ApiError where
  | notFound (msg : String)
  | serverError
deriving DecidableEq

/-- The HTTP status app.js attaches to each error response. -/
def statusCode : ApiError → Nat
  | .notFound _ => 404
  | .serverError => 500

/-- Request body of POST/PUT /products.  The handler destructures only
product_name, price and category; stock_quantity may be present in the
body but is never read (kept here so that this fact is expressible). -/
structure ProductInput where
  product_name : Option String
  price : Option Int
  category : Option String
  stock_quantity : Option Int
deriving DecidableEq

/-- Request body of POST/PUT /sales: the handler destructures
customer_id, product_id and quantity. -/
structure SaleInput where
  customer_id : Option Nat
  product_id : Option Nat
  quantity : Option Int
deriving DecidableEq

/-- GET /products (app.js lines 97-105): SELECT * FROM products. -/
def listProducts (s : Store) : List ProductRow :=
  s.products

/-- GET /products/:product_id (app.js lines 130-142): SELECT with a
WHERE clause; empty result is 404, otherwise the first row. -/
def getProduct (s : Store) (id : Nat) : Except ApiError ProductRow :=
  match s.products.filter (fun p => p.product_id == id) with
  | [] => .error (.notFound "Product not found")
  | p :: _ => .ok p

/-- POST /products (app.js lines 164-176): INSERT (product_name, price,
category) RETURNING *.  No validation of any kind is performed; the
description and stock_quantity columns are not in the column list, so
the new row has NULL there; the SERIAL key is assigned. -/
def createProduct (s : Store) (inp : ProductInput) :
    Except ApiError ProductRow × Store :=
  let row : ProductRow :=
    { product_id := s.nextProductId
      product_name := inp.product_name
      price := inp.price
      category := inp.category
      description := none
      stock_quantity := none }
  (.ok row,
    { s with
        products := s.products ++ [row]
        nextProductId := s.nextProductId + 1 })

/-- The per-row effect of the UPDATE statement of PUT /products: rows
matching the WHERE clause get the three new column values, description
and stock_quantity are not in the SET list. -/
def applyProductUpdate (inp : ProductInput) (id : Nat) (p : ProductRow) :
    ProductRow :=
  if p.product_id = id then
    { p with
        product_name := inp.product_name
        price := inp.price
        category := inp.category }
  else p

/-- PUT /products/:product_id (app.js lines 207-223): UPDATE ... WHERE
product_id = id RETURNING *; an empty RETURNING set is 404 (and then no
row matched, so nothing changed), otherwise the first returned row. -/
def updateProduct (s : Store) (id : Nat) (inp : ProductInput) :
    Except ApiError ProductRow × Store :=
  let updated := s.products.map (applyProductUpdate inp id)
  match updated.filter (fun p => p.product_id == id) with
  | [] => (.error (.notFound "Product not found"), s)
  | p :: _ => (.ok p, { s with products := updated })

/-- Whether any row of sales, orders or order_items references the
given product key: exactly the REFERENCES products(product_id)
constraints of SHOPEASE.sql that a DELETE on products must respect. -/
def productReferenced (s : Store) (id : Nat) : Bool :=
  s.sales.any (fun r => r.product_id == some id) ||
    s.orders.any (fun o => o.product_id == some id) ||
      s.order_items.any (fun oi => oi.product_id == some id)

/-- DELETE /products/:product_id (app.js lines 244-256): DELETE ...
WHERE; rowCount 0 is 404; deleting a row still referenced by a child
table raises a foreign-key violation, which the catch block turns into
a 500 response with the store unchanged. -/
def deleteProduct (s : Store) (id : Nat) : Except ApiError Unit × Store :=
  if s.products.all (fun p => p.product_id != id) then
    (.error (.notFound "Product not found"), s)
  else if productReferenced s id then
    (.error .serverError, s)
  else
    (.ok (), { s with products := s.products.filter (fun p => p.product_id != id) })

/-- Whether a customer row with the given key exists. -/
def customerExists (s : Store) (cid : Nat) : Bool :=
  s.customers.any (fun c => c.customer_id == cid)

/-- Whether a product row with the given key exists. -/
def productExists (s : Store) (pid : Nat) : Bool :=
  s.products.any (fun p => p.product_id == pid)

/-- The foreign-key checks of the sales table: a NULL reference is
admissible (the columns are nullable), a non-null one must match an
existing customers/products row. -/
def saleFkOk (s : Store) (cid pid : Option Nat) : Bool :=
  (match cid with
   | none => true
   | some c => customerExists s c) &&
  (match pid with
   | none => true
   | some p => productExists s p)

/-- GET /sales (app.js lines 308-316). -/
def listSales (s : Store) : List SaleRow :=
  s.sales

/-- GET /sales/:sale_id (app.js lines 341-353). -/
def getSale (s : Store) (id : Nat) : Except ApiError SaleRow :=
  match s.sales.filter (fun r => r.sale_id == id) with
  | [] => .error (.notFound "Sale not found")
  | r :: _ => .ok r

/-- POST /sales (app.js lines 375-387): a single INSERT (customer_id,
product_id, quantity) RETURNING *.  The handler performs no shape
validation, never reads or writes products.stock_quantity, and does not
set the timestamp column (no DEFAULT in the DDL, so it is NULL); a
foreign-key violation from the INSERT surfaces as 500 with no row
inserted. -/
def createSale (s : Store) (inp : SaleInput) :
    Except ApiError SaleRow × Store :=
  if saleFkOk s inp.customer_id inp.product_id then
    let row : SaleRow :=
      { sale_id := s.nextSaleId
        customer_id := inp.customer_id
        product_id := inp.product_id
        quantity := inp.quantity
        timestamp := none }
    (.ok row,
      { s with
          sales := s.sales ++ [row]
          nextSaleId := s.nextSaleId + 1 })
  else
    (.error .serverError, s)

/-- The per-row effect of the UPDATE statement of PUT /sales. -/
def applySaleUpdate (inp : SaleInput) (id : Nat) (r : SaleRow) : SaleRow :=
  if r.sale_id = id then
    { r with
        customer_id := inp.customer_id
        product_id := inp.product_id
        quantity := inp.quantity }
  else r

/-- PUT /sales/:sale_id (app.js lines 418-434): UPDATE ... WHERE
sale_id = id RETURNING *.  When no row matches, nothing is updated and
the empty RETURNING set is 404; when a row matches, the new column
values must satisfy the foreign-key constraints, otherwise the
statement raises and the handler answers 500 with the store unchanged. -/
def updateSale (s : Store) (id : Nat) (inp : SaleInput) :
    Except ApiError SaleRow × Store :=
  match s.sales.filter (fun r => r.sale_id == id) with
  | [] => (.error (.notFound "Sale not found"), s)
  | _ :: _ =>
    if saleFkOk s inp.customer_id inp.product_id then
      let updated := s.sales.map (applySaleUpdate inp id)
      match updated.filter (fun r => r.sale_id == id) with
      | [] => (.error (.notFound "Sale not found"), s)
      | r :: _ => (.ok r, { s with sales := updated })
    else
      (.error .serverError, s)

/-- DELETE /sales/:sale_id (app.js lines 455-467): DELETE ... WHERE;
rowCount 0 is 404.  No table references sales, so the delete itself
cannot raise a foreign-key violation. -/
def deleteSale (s : Store) (id : Nat) : Except ApiError Unit × Store :=
  if s.sales.all (fun r => r.sale_id != id) then
    (.error (.notFound "Sale not found"), s)
  else
    (.ok (), { s with sales := s.sales.filter (fun r => r.sale_id != id) })

/-- One request against the Data Access Service. -/
inductive Op where
  | listProductsOp
  | getProductOp (id : Nat)
  | createProductOp (inp : ProductInput)
  | updateProductOp (id : Nat) (inp : ProductInput)
  | deleteProductOp (id : Nat)
  | listSalesOp
  | getSaleOp (id : Nat)
  | createSaleOp (inp : SaleInput)
  | updateSaleOp (id : Nat) (inp : SaleInput)
  | deleteSaleOp (id : Nat)

/-- The state transition of one request (reads leave the store as is). -/
def applyOp (op : Op) (s : Store) : Store :=
  match op with
  | .listProductsOp => s
  | .getProductOp _ => s
  | .createProductOp inp => (createProduct s inp).2
  | .updateProductOp id inp => (updateProduct s id inp).2
  | .deleteProductOp id => (deleteProduct s id).2
  | .listSalesOp => s
  | .getSaleOp _ => s
  | .createSaleOp inp => (createSale s inp).2
  | .updateSaleOp id inp => (updateSale s id inp).2
  | .deleteSaleOp id => (deleteSale s id).2

/-- A sequence of requests, applied left to right. -/
def runOps (ops : List Op) (s : Store) : Store :=
  match ops with
  | [] => s
  | op :: rest => runOps rest (applyOp op s)

/-- Every stored product whose stock_quantity is non-NULL has a
non-negative value (a NULL satisfies the constraint, as in SQL). -/
def stockOk (s : Store) : Bool :=
  s.products.all (fun p => p.stock_quantity.all (fun q => decide (0 ≤ q)))

/-- Well-formedness the SQL layer guarantees: primary keys are unique
and the SERIAL counters are strictly ahead of every assigned key. -/
structure WF (s : Store) : Prop where
  productIdsNodup : (s.products.map (fun p => p.product_id)).Nodup
  productIdsFresh : ∀ p ∈ s.products, p.product_id < s.nextProductId
  saleIdsNodup : (s.sales.map (fun r => r.sale_id)).Nodup
  saleIdsFresh : ∀ r ∈ s.sales, r.sale_id < s.nextSaleId

/-- Referential integrity of the sales table towards products: every
non-null sales.product_id matches an existing product row. -/
def salesRefOk (s : Store) : Bool :=
  s.sales.all (fun r => r.product_id.all (fun pid => productExists s pid))

/-- Whether a result is a 404 response. -/
def errIsNotFound {α : Type} : Except ApiError α → Bool
  | .error (.notFound _) => true
  | _ => false

/-! ## Concrete stores used by evaluations, counterexamples and witnesses -/

/-- The store right after the schema is created: all tables empty, both
SERIAL sequences at 1. -/
def emptyStore : Store :=
  { customers := []
    products := []
    sales := []
    orders := []
    order_items := []
    nextProductId := 1
    nextSaleId := 1 }

/-- One customer and one product with three units in stock. -/
def lowStockStore : Store :=
  { customers := [{ customer_id := 1 }]
    products := [{ product_id := 1
                   product_name := some "Widget"
                   price := some 10
                   category := some "Misc"
                   description := none
                   stock_quantity := some 3 }]
    sales := []
    orders := []
    order_items := []
    nextProductId := 2
    nextSaleId := 1 }

/-- Two customers and one product with ten units in stock. -/
def raceStore : Store :=
  { customers := [{ customer_id := 1 }, { customer_id := 2 }]
    products := [{ product_id := 1
                   product_name := some "Gadget"
                   price := some 20
                   category := some "Misc"
                   description := none
                   stock_quantity := some 10 }]
    sales := []
    orders := []
    order_items := []
    nextProductId := 2
    nextSaleId := 1 }

/-- One customer, no products. -/
def noProductStore : Store :=
  { customers := [{ customer_id := 1 }]
    products := []
    sales := []
    orders := []
    order_items := []
    nextProductId := 1
    nextSaleId := 1 }

/-- One product referenced by one existing sale. -/
def referencedStore : Store :=
  { customers := [{ customer_id := 1 }]
    products := [{ product_id := 1
                   product_name := some "Widget"
                   price := some 10
                   category := some "Misc"
                   description := none
                   stock_quantity := some 3 }]
    sales := [{ sale_id := 1
                customer_id := some 1
                product_id := some 1
                quantity := some 2
                timestamp := none }]
    orders := []
    order_items := []
    nextProductId := 2
    nextSaleId := 2 }

/-! ## Claim theorems -/

/-- C1: the claim says createSale re-reads stock, fails with Conflict
when stock < quantity, and otherwise decrements stock together with the
insert.  The code does none of this: with a product in stock 3 and a
sale of quantity 5 the call succeeds, the sale row is inserted, and the
product row — stock included — is untouched. -/
theorem createSale_ignores_stock :
    (createSale lowStockStore
        { customer_id := some 1, product_id := some 1, quantity := some 5 }).1 =
      .ok { sale_id := 1, customer_id := some 1, product_id := some 1,
            quantity := some 5, timestamp := none } ∧
    (createSale lowStockStore
        { customer_id := some 1, product_id := some 1, quantity := some 5 }).2.products =
      lowStockStore.products ∧
    (createSale lowStockStore
        { customer_id := some 1, product_id := some 1, quantity := some 5 }).2.sales =
      lowStockStore.sales ++
        [{ sale_id := 1, customer_id := some 1, product_id := some 1,
           quantity := some 5, timestamp := none }] :=
  ⟨rfl, rfl, rfl⟩

/-- C3: the claim says two createSale calls of quantity 6 against a
product with stock 10 end in one success, one Conflict, and stock 4.
In the code both calls succeed under every interleaving (each is a
single unconditional INSERT) and the stock stays 10. -/
theorem createSale_no_race_protection :
    (createSale raceStore
        { customer_id := some 1, product_id := some 1, quantity := some 6 }).1 =
      .ok { sale_id := 1, customer_id := some 1, product_id := some 1,
            quantity := some 6, timestamp := none } ∧
    (createSale
        (createSale raceStore
          { customer_id := some 1, product_id := some 1, quantity := some 6 }).2
        { customer_id := some 2, product_id := some 1, quantity := some 6 }).1 =
      .ok { sale_id := 2, customer_id := some 2, product_id := some 1,
            quantity := some 6, timestamp := none } ∧
    (createSale
        (createSale raceStore
          { customer_id := some 1, product_id := some 1, quantity := some 6 }).2
        { customer_id := some 2, product_id := some 1, quantity := some 6 }).2.products =
      raceStore.products :=
  ⟨rfl, rfl, rfl⟩

/-- C4 counterexample: an input with a negative price and no name does
not produce a ValidationError — createProduct inserts a row for it. -/
theorem createProduct_accepts_invalid :
    (createProduct emptyStore
        { product_name := none, price := some (-5), category := none,
          stock_quantity := none }).1 =
      .ok { product_id := 1, product_name := none, price := some (-5),
            category := none, description := none, stock_quantity := none } ∧
    (createProduct emptyStore
        { product_name := none, price := some (-5), category := none,
          stock_quantity := none }).2.products.length = 1 :=
  ⟨rfl, rfl⟩

/-- C4 amended: createProduct performs no validation at all — for every
input it inserts exactly one row carrying the given product_name, price
and category (with NULL description and stock_quantity), touches
nothing else, and returns the row with its assigned identity. -/
theorem createProduct_unvalidated (s : Store) (inp : ProductInput) :
    ∃ row : ProductRow,
      (createProduct s inp).1 = .ok row ∧
      row.product_id = s.nextProductId ∧
      row.product_name = inp.product_name ∧
      row.price = inp.price ∧
      row.category = inp.category ∧
      row.description = none ∧
      row.stock_quantity = none ∧
      (createProduct s inp).2.products = s.products ++ [row] ∧
      (createProduct s inp).2.sales = s.sales ∧
      (createProduct s inp).2.customers = s.customers :=
  ⟨_, rfl, rfl, rfl, rfl, rfl, rfl, rfl, rfl, rfl, rfl⟩

/-- C5 counterexample: with no product row 1, createSale answers 500
(the foreign-key violation caught by the handler), not NotFound/404. -/
theorem createSale_missing_product_not_notFound :
    (createSale noProductStore
        { customer_id := some 1, product_id := some 1, quantity := some 2 }).1 =
      .error .serverError ∧
    errIsNotFound (createSale noProductStore
        { customer_id := some 1, product_id := some 1, quantity := some 2 }).1 =
      false ∧
    statusCode ApiError.serverError = 500 :=
  ⟨rfl, rfl, rfl⟩

/-- C5 amended: createSale whose product_id (or customer_id) references
no existing row fails with a 500 server error — not NotFound — and
performs no mutation at all. -/
theorem createSale_dangling_fk (s : Store) (inp : SaleInput)
    (h : (∃ pid, inp.product_id = some pid ∧ productExists s pid = false) ∨
         (∃ cid, inp.customer_id = some cid ∧ customerExists s cid = false)) :
    createSale s inp = (.error .serverError, s) := by
  have hfk : saleFkOk s inp.customer_id inp.product_id = false := by
    rcases h with ⟨pid, hpid, habs⟩ | ⟨cid, hcid, habs⟩
    · simp [saleFkOk, hpid, habs]
    · simp [saleFkOk, hcid, habs]
  simp [createSale, hfk]

/-- Witness for the C5 theorem at a concrete store and input. -/
theorem createSale_dangling_fk_witness :
    createSale noProductStore
        { customer_id := some 1, product_id := some 1, quantity := some 2 } =
      (.error .serverError, noProductStore) :=
  createSale_dangling_fk noProductStore
    { customer_id := some 1, product_id := some 1, quantity := some 2 }
    (Or.inl ⟨1, rfl, rfl⟩)

/-- C6 counterexample: deleting a product referenced by an existing
sale is rejected with a 500 server error, not with Conflict/409. -/
theorem deleteProduct_referenced_not_conflict :
    deleteProduct referencedStore 1 = (.error .serverError, referencedStore) ∧
    statusCode ApiError.serverError = 500 ∧
    statusCode ApiError.serverError ≠ 409 :=
  ⟨rfl, rfl, by decide⟩

/-- C6 amended: deleteProduct on an absent id answers NotFound with no
mutation; on a product referenced by an existing sale the foreign-key
constraint rejects the delete as a 500 server error (not Conflict) with
no mutation; and no execution of deleteProduct breaks the referential
integrity of sales towards products. -/
theorem deleteProduct_checked (s : Store) (id : Nat) :
    ((∀ p ∈ s.products, p.product_id ≠ id) →
      deleteProduct s id = (.error (.notFound "Product not found"), s)) ∧
    ((∃ p ∈ s.products, p.product_id = id) →
      (∃ r ∈ s.sales, r.product_id = some id) →
      deleteProduct s id = (.error .serverError, s)) ∧
    (salesRefOk s = true → salesRefOk (deleteProduct s id).2 = true) := by
  refine ⟨?_, ?_, ?_⟩
  · intro h
    have hall : s.products.all (fun p => p.product_id != id) = true := by
      simp only [List.all_eq_true, bne_iff_ne, ne_eq]
      exact h
    simp [deleteProduct, hall]
  · rintro ⟨p, hp, hpid⟩ ⟨r, hr, hrid⟩
    have hall : ¬ (s.products.all (fun p => p.product_id != id) = true) := by
      simp only [List.all_eq_true, bne_iff_ne, ne_eq]
      intro hforall
      exact hforall p hp hpid
    have href : productReferenced s id = true := by
      simp only [productReferenced, Bool.or_eq_true, List.any_eq_true]
      exact Or.inl (Or.inl ⟨r, hr, by simp [hrid]⟩)
    simp [deleteProduct, hall, href]
  · intro hok
    unfold deleteProduct
    split
    · exact hok
    · split
      · exact hok
      · rename_i hne href
        simp only [salesRefOk, List.all_eq_true] at hok ⊢
        intro r hr
        have hrefok := hok r hr
        cases hpid : r.product_id with
        | none => simp [Option.all]
        | some pid =>
          rw [hpid] at hrefok
          simp only [Option.all] at hrefok ⊢
          have hpidne : pid ≠ id := by
            intro he
            apply href
            simp only [productReferenced, Bool.or_eq_true, List.any_eq_true]
            exact Or.inl (Or.inl ⟨r, hr, by simp [hpid, he]⟩)
          simp only [productExists, List.any_eq_true, beq_iff_eq] at hrefok ⊢
          obtain ⟨p, hp, hpe⟩ := hrefok
          refine ⟨p, List.mem_filter.mpr ⟨hp, ?_⟩, hpe⟩
          simp only [bne_iff_ne, ne_eq]
          rw [hpe]
          exact hpidne

/-- Witness for the C6 theorem: both error branches fire at concrete
stores, and the integrity part holds at the referenced store. -/
theorem deleteProduct_checked_witness :
    deleteProduct referencedStore 2 =
      (.error (.notFound "Product not found"), referencedStore) ∧
    deleteProduct referencedStore 1 = (.error .serverError, referencedStore) ∧
    salesRefOk (deleteProduct referencedStore 1).2 = true :=
  ⟨(deleteProduct_checked referencedStore 2).1 (by decide),
   (deleteProduct_checked referencedStore 1).2.1 (by decide) (by decide),
   (deleteProduct_checked referencedStore 1).2.2 (by decide)⟩

/-- C8 counterexample: a successful createSale returns a row whose
timestamp column is NULL — the code assigns no creation timestamp
(the INSERT omits the column and the DDL declares no DEFAULT). -/
theorem createSale_null_timestamp :
    (createSale lowStockStore
        { customer_id := some 1, product_id := some 1, quantity := some 2 }).1 =
      .ok { sale_id := 1, customer_id := some 1, product_id := some 1,
            quantity := some 2, timestamp := none } ∧
    (match (createSale lowStockStore
        { customer_id := some 1, product_id := some 1, quantity := some 2 }).1 with
     | .ok r => r.timestamp
     | .error _ => none) = none :=
  ⟨rfl, rfl⟩

/-- C8 amended: every successful createSale inserts exactly one row
carrying a server-assigned identity (the SERIAL key, returned to the
caller) and the given references and quantity, but its timestamp is
NULL — no creation time is recorded. -/
theorem createSale_assigns_id_not_timestamp (s : Store) (inp : SaleInput)
    (h : saleFkOk s inp.customer_id inp.product_id = true) :
    ∃ row : SaleRow,
      (createSale s inp).1 = .ok row ∧
      row.sale_id = s.nextSaleId ∧
      row.customer_id = inp.customer_id ∧
      row.product_id = inp.product_id ∧
      row.quantity = inp.quantity ∧
      row.timestamp = none ∧
      (createSale s inp).2.sales = s.sales ++ [row] ∧
      (createSale s inp).2.products = s.products := by
  refine ⟨{ sale_id := s.nextSaleId, customer_id := inp.customer_id,
            product_id := inp.product_id, quantity := inp.quantity,
            timestamp := none }, ?_, rfl, rfl, rfl, rfl, rfl, ?_, ?_⟩ <;>
    simp [createSale, h]

/-- Witness for the C8 theorem at a concrete store and input. -/
theorem createSale_assigns_id_not_timestamp_witness :
    ∃ row : SaleRow,
      (createSale lowStockStore
          { customer_id := some 1, product_id := some 1, quantity := some 2 }).1 =
        .ok row ∧
      row.sale_id = lowStockStore.nextSaleId ∧
      row.customer_id = some 1 ∧
      row.product_id = some 1 ∧
      row.quantity = some 2 ∧
      row.timestamp = none ∧
      (createSale lowStockStore
          { customer_id := some 1, product_id := some 1, quantity := some 2 }).2.sales =
        lowStockStore.sales ++ [row] ∧
      (createSale lowStockStore
          { customer_id := some 1, product_id := some 1, quantity := some 2 }).2.products =
        lowStockStore.products :=
  createSale_assigns_id_not_timestamp lowStockStore
    { customer_id := some 1, product_id := some 1, quantity := some 2 } rfl

/-- The UPDATE of PUT /products leaves the key untouched. -/
theorem applyProductUpdate_product_id (inp : ProductInput) (id : Nat)
    (p : ProductRow) : (applyProductUpdate inp id p).product_id = p.product_id := by
  unfold applyProductUpdate
  split <;> rfl

/-- The UPDATE of PUT /products never touches the stock_quantity column. -/
theorem applyProductUpdate_stock (inp : ProductInput) (id : Nat)
    (p : ProductRow) :
    (applyProductUpdate inp id p).stock_quantity = p.stock_quantity := by
  unfold applyProductUpdate
  split <;> rfl

/-- Provenance of product rows: after any single operation, every row
of the products table either shares key and stock_quantity with a row
that was already stored, or is the row freshly inserted by POST
/products, which carries the next SERIAL key and a NULL stock. -/
theorem applyOp_product_provenance (op : Op) (s : Store) (q : ProductRow)
    (hq : q ∈ (applyOp op s).products) :
    (∃ p ∈ s.products, p.product_id = q.product_id ∧
        p.stock_quantity = q.stock_quantity) ∨
    (q.product_id = s.nextProductId ∧ q.stock_quantity = none) := by
  cases op with
  | listProductsOp => exact Or.inl ⟨q, hq, rfl, rfl⟩
  | getProductOp id => exact Or.inl ⟨q, hq, rfl, rfl⟩
  | createProductOp inp =>
    simp only [applyOp, createProduct, List.mem_append, List.mem_singleton] at hq
    rcases hq with hq | hq
    · exact Or.inl ⟨q, hq, rfl, rfl⟩
    · subst hq
      exact Or.inr ⟨rfl, rfl⟩
  | updateProductOp id inp =>
    simp only [applyOp, updateProduct] at hq
    split at hq
    · exact Or.inl ⟨q, hq, rfl, rfl⟩
    · simp only [List.mem_map] at hq
      obtain ⟨p, hp, hpq⟩ := hq
      subst hpq
      exact Or.inl ⟨p, hp,
        (applyProductUpdate_product_id inp id p).symm,
        (applyProductUpdate_stock inp id p).symm⟩
  | deleteProductOp id =>
    simp only [applyOp, deleteProduct] at hq
    split at hq
    · exact Or.inl ⟨q, hq, rfl, rfl⟩
    · split at hq
      · exact Or.inl ⟨q, hq, rfl, rfl⟩
      · exact Or.inl ⟨q, (List.mem_filter.mp hq).1, rfl, rfl⟩
  | listSalesOp => exact Or.inl ⟨q, hq, rfl, rfl⟩
  | getSaleOp id => exact Or.inl ⟨q, hq, rfl, rfl⟩
  | createSaleOp inp =>
    simp only [applyOp, createSale] at hq
    split at hq
    · exact Or.inl ⟨q, hq, rfl, rfl⟩
    · exact Or.inl ⟨q, hq, rfl, rfl⟩
  | updateSaleOp id inp =>
    simp only [applyOp, updateSale] at hq
    split at hq
    · exact Or.inl ⟨q, hq, rfl, rfl⟩
    · split at hq
      · split at hq
        · exact Or.inl ⟨q, hq, rfl, rfl⟩
        · exact Or.inl ⟨q, hq, rfl, rfl⟩
      · exact Or.inl ⟨q, hq, rfl, rfl⟩
  | deleteSaleOp id =>
    simp only [applyOp, deleteSale] at hq
    split at hq
    · exact Or.inl ⟨q, hq, rfl, rfl⟩
    · exact Or.inl ⟨q, hq, rfl, rfl⟩

/-- C2: the non-negative-stock constraint is an invariant of the whole
service — it holds after every sequence of operations started in a
state satisfying it.  (In this code base it holds for the degenerate
reason that no operation ever writes the stock_quantity column.) -/
theorem stock_never_negative (init : Store) (ops : List Op)
    (h : stockOk init = true) : stockOk (runOps ops init) = true := by
  induction ops generalizing init with
  | nil => exact h
  | cons op rest ih =>
    refine ih (applyOp op init) ?_
    simp only [stockOk, List.all_eq_true] at h ⊢
    intro q hq
    rcases applyOp_product_provenance op init q hq with
      ⟨p, hp, _, hstock⟩ | ⟨_, hstock⟩
    · rw [← hstock]
      exact h p hp
    · rw [hstock]
      rfl

/-- Witness for the C2 theorem: a concrete run (create, sell, update,
delete) from a concrete non-negative state. -/
theorem stock_never_negative_witness :
    stockOk raceStore = true ∧
    stockOk (runOps
      [Op.createProductOp
        { product_name := some "Cable", price := some 5,
          category := some "Misc", stock_quantity := some 7 },
       Op.createSaleOp
        { customer_id := some 1, product_id := some 1, quantity := some 6 },
       Op.updateProductOp 1
        { product_name := some "Gadget", price := some 25,
          category := some "Misc", stock_quantity := none },
       Op.deleteSaleOp 1]
      raceStore) = true :=
  ⟨by decide, stock_never_negative raceStore _ (by decide)⟩

/-- C9: no operation writes the stock_quantity column — for any single
operation of the service and any product stored before it, a product
row stored afterwards under the same key still carries the same
stock_quantity.  (Keys are unique and the SERIAL counter is fresh, as
the SQL layer guarantees: the WF hypothesis.) -/
theorem stock_frame (op : Op) (s : Store) (hwf : WF s) (p q : ProductRow)
    (hp : p ∈ s.products) (hq : q ∈ (applyOp op s).products)
    (hid : q.product_id = p.product_id) :
    q.stock_quantity = p.stock_quantity := by
  rcases applyOp_product_provenance op s q hq with
    ⟨r, hr, hrid, hrstock⟩ | ⟨hqid, _⟩
  · have hrp : r = p :=
      List.inj_on_of_nodup_map hwf.productIdsNodup hr hp (by rw [hrid, hid])
    rw [← hrstock, hrp]
  · have hlt : p.product_id < s.nextProductId := hwf.productIdsFresh p hp
    rw [hid] at hqid
    omega

/-- Witness for the C9 theorem: an update of product 1 leaves the
stored stock of product 1 unchanged. -/
theorem stock_frame_witness :
    (applyOp
        (Op.updateProductOp 1
          { product_name := some "Gadget Pro", price := some 30,
            category := some "Misc", stock_quantity := some 99 })
        raceStore).products =
      [{ product_id := 1, product_name := some "Gadget Pro",
         price := some 30, category := some "Misc",
         description := none, stock_quantity := some 10 }] ∧
    ({ product_id := 1, product_name := some "Gadget Pro",
       price := some 30, category := some "Misc",
       description := none, stock_quantity := some 10 } :
        ProductRow).stock_quantity =
      ({ product_id := 1, product_name := some "Gadget",
         price := some 20, category := some "Misc",
         description := none, stock_quantity := some 10 } :
          ProductRow).stock_quantity :=
  ⟨by decide,
   stock_frame
     (Op.updateProductOp 1
       { product_name := some "Gadget Pro", price := some 30,
         category := some "Misc", stock_quantity := some 99 })
     raceStore
     ⟨by decide, by decide, by decide, by decide⟩
     { product_id := 1, product_name := some "Gadget",
       price := some 20, category := some "Misc",
       description := none, stock_quantity := some 10 }
     { product_id := 1, product_name := some "Gadget Pro",
       price := some 30, category := some "Misc",
       description := none, stock_quantity := some 10 }
     (by decide) (by decide) rfl⟩

/-- C10: PUT /products/:id and PUT /sales/:id on an id matching no row
answer 404 NotFound and leave the whole store — every table — exactly
as it was. -/
theorem update_missing_is_pure_notFound (s : Store) (pid sid : Nat)
    (pinp : ProductInput) (sinp : SaleInput) :
    ((∀ p ∈ s.products, p.product_id ≠ pid) →
      updateProduct s pid pinp =
        (.error (.notFound "Product not found"), s) ∧
      statusCode (.notFound "Product not found") = 404) ∧
    ((∀ r ∈ s.sales, r.sale_id ≠ sid) →
      updateSale s sid sinp = (.error (.notFound "Sale not found"), s) ∧
      statusCode (.notFound "Sale not found") = 404) := by
  constructor
  · intro h
    refine ⟨?_, rfl⟩
    have hfil :
        (s.products.map (applyProductUpdate pinp pid)).filter
            (fun p => p.product_id == pid) = [] := by
      rw [List.filter_eq_nil_iff]
      intro q hq
      simp only [List.mem_map] at hq
      obtain ⟨p, hp, hpq⟩ := hq
      subst hpq
      simp only [beq_iff_eq, applyProductUpdate_product_id]
      exact h p hp
    simp only [updateProduct, hfil]
  · intro h
    refine ⟨?_, rfl⟩
    have hfil : s.sales.filter (fun r => r.sale_id == sid) = [] := by
      rw [List.filter_eq_nil_iff]
      intro r hr
      simp only [beq_iff_eq]
      exact h r hr
    simp only [updateSale, hfil]

/-- Witness for the C10 theorem: both updates at an absent id 5. -/
theorem update_missing_is_pure_notFound_witness :
    updateProduct referencedStore 5
        { product_name := some "X", price := some 1,
          category := some "Y", stock_quantity := none } =
      (.error (.notFound "Product not found"), referencedStore) ∧
    updateSale referencedStore 5
        { customer_id := some 1, product_id := some 1, quantity := some 1 } =
      (.error (.notFound "Sale not found"), referencedStore) :=
  ⟨((update_missing_is_pure_notFound referencedStore 5 5
      { product_name := some "X", price := some 1,
        category := some "Y", stock_quantity := none }
      { customer_id := some 1, product_id := some 1, quantity := some 1 }).1
      (by decide)).1,
   ((update_missing_is_pure_notFound referencedStore 5 5
      { product_name := some "X", price := some 1,
        category := some "Y", stock_quantity := none }
      { customer_id := some 1, product_id := some 1, quantity := some 1 }).2
      (by decide)).1⟩

/-- The spec round-trip input: a laptop with five units of stock. -/
def laptopInput : ProductInput :=
  { product_name := some "Laptop", price := some 1200,
    category := some "Electronics", stock_quantity := some 5 }

/-- C7 counterexample: createProduct drops the stock_quantity of its
input (the INSERT has no such column), so reading the product back
yields NULL stock, not the submitted 5 — the round-trip does not return
the same field values. -/
theorem roundtrip_drops_stock :
    getProduct (createProduct emptyStore laptopInput).2 1 =
      .ok { product_id := 1, product_name := some "Laptop",
            price := some 1200, category := some "Electronics",
            description := none, stock_quantity := none } ∧
    (match getProduct (createProduct emptyStore laptopInput).2 1 with
     | .ok q => q.stock_quantity
     | .error _ => none) ≠ laptopInput.stock_quantity :=
  ⟨rfl, by decide⟩

/-- Filtering on the key commutes with the UPDATE of PUT /products,
because that UPDATE never changes the key. -/
theorem filter_map_applyProductUpdate (inp : ProductInput) (id : Nat)
    (l : List ProductRow) :
    (l.map (applyProductUpdate inp id)).filter (fun x => x.product_id == id) =
      (l.filter (fun x => x.product_id == id)).map (applyProductUpdate inp id) := by
  rw [List.filter_map]
  have hpred : ((fun x => x.product_id == id) ∘ applyProductUpdate inp id) =
      (fun x : ProductRow => x.product_id == id) := by
    funext x
    simp [Function.comp, applyProductUpdate_product_id]
  rw [hpred]

/-- C7 amended: reading back a created product returns the submitted
product_name, price and category plus the assigned identity — but a
NULL stock_quantity regardless of the submitted one; and after an
update resubmitting the stored fields with a new price, reading the
product back yields exactly the old row with only its price changed. -/
theorem product_roundtrip (s : Store) (inp : ProductInput) (id : Nat)
    (p : ProductRow) (newPrice : Option Int) (hwf : WF s)
    (hget : getProduct s id = .ok p) :
    (∃ row : ProductRow,
      (createProduct s inp).1 = .ok row ∧
      row.product_id = s.nextProductId ∧
      row.product_name = inp.product_name ∧
      row.price = inp.price ∧
      row.category = inp.category ∧
      row.stock_quantity = none ∧
      getProduct (createProduct s inp).2 row.product_id = .ok row) ∧
    (updateProduct s id
        { product_name := p.product_name, price := newPrice,
          category := p.category, stock_quantity := p.stock_quantity }).1 =
      .ok { p with price := newPrice } ∧
    getProduct (updateProduct s id
        { product_name := p.product_name, price := newPrice,
          category := p.category, stock_quantity := p.stock_quantity }).2 id =
      .ok { p with price := newPrice } := by
  have hfresh :
      s.products.filter (fun x => x.product_id == s.nextProductId) = [] := by
    rw [List.filter_eq_nil_iff]
    intro q hqmem
    simp only [beq_iff_eq]
    have := hwf.productIdsFresh q hqmem
    omega
  obtain ⟨tl, hfil, hpid⟩ :
      ∃ tl, s.products.filter (fun x => x.product_id == id) = p :: tl ∧
        p.product_id = id := by
    unfold getProduct at hget
    split at hget
    · cases hget
    · rename_i q tl2 hfil2
      simp only [Except.ok.injEq] at hget
      rw [hget] at hfil2
      refine ⟨tl2, hfil2, ?_⟩
      have hqmem : p ∈ s.products.filter (fun x => x.product_id == id) := by
        rw [hfil2]
        exact List.mem_cons_self p tl2
      have h2 := (List.mem_filter.mp hqmem).2
      simpa using h2
  have hfp :
      applyProductUpdate
        { product_name := p.product_name, price := newPrice,
          category := p.category, stock_quantity := p.stock_quantity } id p =
      { p with price := newPrice } := by
    unfold applyProductUpdate
    rw [if_pos hpid]
  refine ⟨?_, ?_, ?_⟩
  · refine ⟨{ product_id := s.nextProductId,
              product_name := inp.product_name, price := inp.price,
              category := inp.category, description := none,
              stock_quantity := none },
            rfl, rfl, rfl, rfl, rfl, rfl, ?_⟩
    simp [getProduct, createProduct, List.filter_append, hfresh]
  · simp only [updateProduct]
    rw [filter_map_applyProductUpdate, hfil, List.map_cons, hfp]
  · simp only [updateProduct]
    rw [filter_map_applyProductUpdate, hfil, List.map_cons, hfp]
    simp only [getProduct]
    rw [filter_map_applyProductUpdate, hfil, List.map_cons, hfp]

/-- Witness for the C7 theorem: updating only the price of the stored
gadget and reading it back. -/
theorem product_roundtrip_witness :
    getProduct (updateProduct raceStore 1
        { product_name := some "Gadget", price := some 999,
          category := some "Misc", stock_quantity := some 10 }).2 1 =
      .ok { product_id := 1, product_name := some "Gadget",
            price := some 999, category := some "Misc",
            description := none, stock_quantity := some 10 } :=
  (product_roundtrip raceStore laptopInput 1
      { product_id := 1, product_name := some "Gadget", price := some 20,
        category := some "Misc", description := none,
        stock_quantity := some 10 }
      (some 999)
      ⟨by decide, by decide, by decide, by decide⟩
      rfl).2.2
